import Mathlib

/-!
Shallow embedding of the Conway's Game of Life implementation
(serial C version, CUDA variant, and the NPY file codec in util.c).

Grids are modelled as total functions `Nat → Nat` from flat indices to
byte values (the C code stores cells as `uint8_t`; only the values 0 and
nonzero matter to the logic, and the code itself only ever stores 0 or 1).
A read past the logical end of a C buffer lands on whatever byte happens
to be there; in the model such a read simply reads the function at that
index, so out-of-logical-bounds contents are represented by the function's
values at indices `≥ rows*cols`.

All index arithmetic in the C code is on `size_t`; every subtraction is
performed only under a guard that makes it non-negative (short-circuit
`&&`), so `Nat` subtraction agrees with the C arithmetic at every read
that actually happens.
-/

/-- Indicator of a decidable proposition, the value a C boolean expression
contributes when added to an `int` accumulator. -/
def ind (p : Prop) [Decidable p] : Nat := if p then 1 else 0

theorem ind_le_one (p : Prop) [Decidable p] : ind p ≤ 1 := by
  unfold ind; split <;> simp

/-- The neighbor count computed inline by the serial `update`
(src/unnamed/part_000 lines 24-35): eight guarded reads, with the
"before"-side guards `x >= 1` / `y >= 1` and the "after"-side guards
`x < sz` / `y < sz` exactly as in the source (the after-side guards are
the literal, loose ones of the serial code). -/
def neighbor_count (g : Nat → Nat) (i sz : Nat) : Nat :=
  ind (1 ≤ i % sz ∧ 1 ≤ i / sz ∧ g (i - sz - 1) ≠ 0) +
  ind (1 ≤ i / sz ∧ g (i - sz) ≠ 0) +
  ind (i % sz < sz ∧ 1 ≤ i / sz ∧ g (i - sz + 1) ≠ 0) +
  ind (1 ≤ i % sz ∧ g (i - 1) ≠ 0) +
  ind (i % sz < sz ∧ g (i + 1) ≠ 0) +
  ind (1 ≤ i % sz ∧ i / sz < sz ∧ g (i + sz - 1) ≠ 0) +
  ind (i / sz < sz ∧ g (i + sz) ≠ 0) +
  ind (i % sz < sz ∧ i / sz < sz ∧ g (i + sz + 1) ≠ 0)

/-- The value the serial `update` stores into `grid_next[i]`
(src/unnamed/part_000 line 40):
`(grid[i] && (neighbor_count > 1 && neighbor_count <= 3)) || (!grid[i] && (neighbor_count == 3))`,
a C boolean, hence 0 or 1. -/
def next_state (g : Nat → Nat) (i sz : Nat) : Nat :=
  if (g i ≠ 0 ∧ (1 < neighbor_count g i sz ∧ neighbor_count g i sz ≤ 3)) ∨
     (g i = 0 ∧ neighbor_count g i sz = 3)
  then 1 else 0

/-- The C function `update(grid, grid_next, i, sz)` as a transformer of the
pair (grid, grid_next): it performs exactly one store, `grid_next[i] = v`
with `v = next_state grid i sz`, and never writes `grid`. -/
def update (g gn : Nat → Nat) (i sz : Nat) : (Nat → Nat) × (Nat → Nat) :=
  (g, Function.update gn i (next_state g i sz))

/-- The flat indices of `grid` that a call `update(grid, grid_next, i, sz)`
dereferences, following the source's short-circuit guards exactly: a read
`c && grid[e]` happens iff `c` holds (the guards do not depend on the grid
contents), plus the unconditional reads of `grid[i]` in line 40. -/
def updateReads (i sz : Nat) : List Nat :=
  (if 1 ≤ i % sz ∧ 1 ≤ i / sz then [i - sz - 1] else []) ++
  (if 1 ≤ i / sz then [i - sz] else []) ++
  (if i % sz < sz ∧ 1 ≤ i / sz then [i - sz + 1] else []) ++
  (if 1 ≤ i % sz then [i - 1] else []) ++
  (if i % sz < sz then [i + 1] else []) ++
  (if 1 ≤ i % sz ∧ i / sz < sz then [i + sz - 1] else []) ++
  (if i / sz < sz then [i + sz] else []) ++
  (if i % sz < sz ∧ i / sz < sz then [i + sz + 1] else []) ++
  [i]

/-- The neighbor count of the CUDA variant, `get_num_neighbors`
(src/unnamed/part_000 lines 184-200). Its "after"-side guards are the
strict `x < sz-1` / `y < sz-1`, except the third check which keeps the
loose `x < sz` (line 192), transcribed literally. -/
def get_num_neighbors (g : Nat → Nat) (i sz : Nat) : Nat :=
  ind (1 ≤ i % sz ∧ 1 ≤ i / sz ∧ g (i - sz - 1) ≠ 0) +
  ind (1 ≤ i / sz ∧ g (i - sz) ≠ 0) +
  ind (i % sz < sz ∧ 1 ≤ i / sz ∧ g (i - sz + 1) ≠ 0) +
  ind (1 ≤ i % sz ∧ g (i - 1) ≠ 0) +
  ind (i % sz < sz - 1 ∧ g (i + 1) ≠ 0) +
  ind (1 ≤ i % sz ∧ i / sz < sz - 1 ∧ g (i + sz - 1) ≠ 0) +
  ind (i / sz < sz - 1 ∧ g (i + sz) ≠ 0) +
  ind (i % sz < sz - 1 ∧ i / sz < sz - 1 ∧ g (i + sz + 1) ≠ 0)

/-- The value the CUDA kernel `simulate` stores into `grid_next[k]` when
thread `i` processes cell `k` (src/unnamed/part_000 lines 223-224):
`n = get_num_neighbors(grid, k, world_size);`
`grid_next[k] = grid[i] && (n > 1 && n <= 3) || !grid[i] && (n == 3);`
— note the source tests `grid[i]` (the thread index), not `grid[k]`. -/
def simulate_cell (g : Nat → Nat) (i k sz : Nat) : Nat :=
  if (g i ≠ 0 ∧ (1 < get_num_neighbors g k sz ∧ get_num_neighbors g k sz ≤ 3)) ∨
     (g i = 0 ∧ get_num_neighbors g k sz = 3)
  then 1 else 0

/-- One full pass of main's inner loop (src/unnamed/part_000 lines 113-115):
`for i in [0, m*n): update(grid_copy, grid_next, i, n)`. Indices `≥ m*n`
of the next buffer are never written and keep their old contents. -/
def sweep (g gn : Nat → Nat) (m n : Nat) : Nat → Nat :=
  fun i => if i < m * n then next_state g i n else gn i

/-- `memcpy(grids + s*grid_size, src, grid_size)`: overwrite the first
`gs` bytes of slot `s` of the history buffer (slot `t` models bytes
`[t*gs, (t+1)*gs)` of the flat `grids` allocation). -/
def writeSlot (buf : Nat → Nat → Nat) (s : Nat) (g : Nat → Nat) (gs : Nat) :
    Nat → Nat → Nat :=
  fun t => if t = s then (fun off => if off < gs then g off else buf t off) else buf t

/-- The simulation loop of `main` (src/unnamed/part_000 lines 112-118),
by recursion on the remaining steps, carrying the step counter, the two
working buffers and the history buffer. Each iteration sweeps
`grid_copy` into `grid_next`, swaps the two pointers, and copies the new
current grid to `grids + step*grid_size` — the literal destination
offset of the source's `memcpy`. Returns (grid_copy, grid_next, grids). -/
def mainLoop (m n : Nat) :
    Nat → Nat → (Nat → Nat) → (Nat → Nat) → (Nat → Nat → Nat) →
    (Nat → Nat) × (Nat → Nat) × (Nat → Nat → Nat)
  | 0, _, gc, gn, buf => (gc, gn, buf)
  | steps + 1, step, gc, gn, buf =>
      mainLoop m n steps (step + 1) (sweep gc gn m n) gc
        (writeSlot buf step (sweep gc gn m n) (m * n))

/-- `main`'s simulation-and-history phase (src/unnamed/part_000 lines
104-118): `grid_copy` starts as a copy of the loaded grid `g0`,
`grid_next` starts as the uninitialized allocation `gn0`, the history
buffer starts as the uninitialized allocation `buf0` with the initial
grid copied into slot 0 (`memcpy(grids, grid, grid_size)`), then the
loop runs for `iters` steps. -/
def mainRun (g0 gn0 : Nat → Nat) (buf0 : Nat → Nat → Nat) (m n iters : Nat) :
    (Nat → Nat) × (Nat → Nat) × (Nat → Nat → Nat) :=
  mainLoop m n iters 0 g0 gn0 (writeSlot buf0 0 g0 (m * n))

/-! ## NPY codec (src/util.c) -/

/-- ASCII bytes of a string, as the `snprintf` in `grid_to_npy` lays them
down (all characters involved are single-byte ASCII). -/
def asciiBytes (s : String) : List Nat := s.data.map Char.toNat

/-- The textual dictionary part of the NPY header written by
`grid_to_npy` (src/util.c lines 158-160): the format string
`{'descr': '<u1', 'fortran_order': False, 'shape': (%zu, %zu, %zu), }`
with the three dimensions substituted in decimal. -/
def npyDict (m n p : Nat) : List Nat :=
  asciiBytes ("\x7b\x27descr\x27: \x27<u1\x27, \x27fortran_order\x27: False, \x27shape\x27: ("
    ++ Nat.repr m ++ ", " ++ Nat.repr n ++ ", " ++ Nat.repr p ++ "), \x7d")

/-- The first ten header bytes after `grid_to_npy`'s fix-ups: the
`snprintf` writes `\x93NUMPY\x01` followed by three spaces, then
`header[7] = 0` (src/util.c line 162) and
`*(unsigned short*)&header[8] = sizeof(header) - 10 = 118` stored
little-endian (line 163) overwrite bytes 7-9. -/
def npyPreamble : List Nat := 0x93 :: asciiBytes "NUMPY" ++ [1, 0, 118, 0]

/-- Preamble plus dictionary: the `len` bytes produced by the `snprintf`
(with bytes 7-9 patched as above). -/
def npyHeaderBody (m n p : Nat) : List Nat := npyPreamble ++ npyDict m n p

/-- The full 128-byte header of `grid_to_npy` (src/util.c lines 157-165):
body, then `memset(header+len, ' ', sizeof(header)-len-1)` space padding,
then `header[127] = '\n'`. Faithful for every shape whose body fits the
fixed `char header[128]` (body length ≤ 127); beyond that the C code's
`snprintf` truncates and the `memset` size underflows (undefined
behavior), which is outside this model. -/
def npyHeader (m n p : Nat) : List Nat :=
  npyHeaderBody m n p ++
    List.replicate (127 - (npyHeaderBody m n p).length) 32 ++ [10]

/-- `grid_to_npy(file, grid, m, n, p)` (src/util.c lines 155-172), with
the two `fwrite` calls abstracted by the element counts they report:
`hw` for the 128-byte header write and `pw` for the payload write (the
payload request is `n*m*p` bytes, so in any real run `pw ≤ n*m*p`).
The source returns `false` unless the header write reported 128, and
then returns the literal comparison `fwrite(...) == n*m`. -/
def grid_to_npy (hw pw m n p : Nat) : Bool :=
  if hw = 128 then decide (pw = n * m) else false

/-- `grid_to_npy_path` (src/util.c lines 177-183): returns `false` when
`fopen` fails; otherwise it calls `grid_to_npy`, discards its result,
and returns `true`. -/
def grid_to_npy_path (openOk : Bool) (hw pw m n p : Nat) : Bool :=
  if openOk then
    let _ := grid_to_npy hw pw m n p
    true
  else false

/-- Modelled from the spec: `__npy_read_header` (declared in
matrix_io_helpers.h, whose implementation is not under src/) validates
the fixed magic byte sequence and version, parses the textual shape/dtype
descriptor, and fails if the magic bytes do not match, the descriptor is
unparseable, the element type is not an unsigned 8-bit integer, or the
dimensionality is not 1 or 2 (spec §4.1 `read_header`); on success it
yields the shape and the payload offset. Abstracted over the outcome of
each validation and over the parsed values. -/
def npy_read_header (magicOk descrOk dtypeOk : Bool) (ndim : Nat)
    (sh : Nat × Nat) (off : Nat) : Option (Nat × Nat × Nat) :=
  if magicOk && descrOk && dtypeOk && (ndim == 1 || ndim == 2) then
    some (sh.1, sh.2, off)
  else none

/-- `grid_from_npy` (src/util.c lines 96-111), abstracted over the result
`hdr` of `__npy_read_header` and over whether `mmap` succeeds: NULL
(`none`) when the header read failed, NULL when the mapping failed,
otherwise the data view (offset past the header, and the shape). -/
def grid_from_npy (hdr : Option (Nat × Nat × Nat)) (mmapOk : Bool) :
    Option (Nat × Nat × Nat) :=
  match hdr with
  | none => none
  | some (s0, s1, off) => if mmapOk then some (off, s0, s1) else none

/-- `grid_from_npy_path` (src/util.c lines 116-122): NULL when `fopen`
fails, otherwise the result of `grid_from_npy`. -/
def grid_from_npy_path (openOk : Bool) (hdr : Option (Nat × Nat × Nat))
    (mmapOk : Bool) : Option (Nat × Nat × Nat) :=
  if openOk then grid_from_npy hdr mmapOk else none

/- ------------------------------------------------------------------ -/
/- Theorems -/
/- ------------------------------------------------------------------ -/

theorem neighbor_count_le_eight (g : Nat → Nat) (i sz : Nat) :
    neighbor_count g i sz ≤ 8 := by
  unfold neighbor_count
  calc _ ≤ 1 + 1 + 1 + 1 + 1 + 1 + 1 + 1 := by
        gcongr <;> apply ind_le_one
    _ = 8 := rfl

/-- Claim C4: the serial update's stored value follows the collapsed
Game-of-Life rule table exactly: the cell's next value is 1 iff
(the cell is nonzero and its computed neighbor count is 2 or 3) or
(the cell is zero and the count is exactly 3); otherwise it is 0. The
computed neighbor count is always at most 8, and the result is a function
of (grid, i, size), hence deterministic. -/
theorem next_state_rule (g : Nat → Nat) (i sz : Nat) :
    neighbor_count g i sz ≤ 8 ∧
    next_state g i sz =
      (if (g i ≠ 0 ∧ (neighbor_count g i sz = 2 ∨ neighbor_count g i sz = 3)) ∨
          (g i = 0 ∧ neighbor_count g i sz = 3)
       then 1 else 0) := by
  refine ⟨neighbor_count_le_eight g i sz, ?_⟩
  unfold next_state
  split_ifs <;> omega

/-- Claim C7: the per-cell update writes only 0 or 1, hence after a full
pass every cell (index `< m*n`) of the resulting grid is 0 or 1; since
this holds for every input grid, the invariant is preserved by every
subsequent step. -/
theorem next_state_binary (g gn : Nat → Nat) (i sz m n j : Nat) (h : j < m * n) :
    (next_state g i sz = 0 ∨ next_state g i sz = 1) ∧
    (sweep g gn m n j = 0 ∨ sweep g gn m n j = 1) := by
  constructor
  · unfold next_state; split <;> simp
  · unfold sweep next_state
    rw [if_pos h]
    split <;> simp

theorem next_state_binary_witness :
    (4 : Nat) < 3 * 3 ∧
    ((next_state (fun _ => 0) 4 3 = 0 ∨ next_state (fun _ => 0) 4 3 = 1) ∧
     (sweep (fun _ => 0) (fun _ => 0) 3 3 4 = 0 ∨
      sweep (fun _ => 0) (fun _ => 0) 3 3 4 = 1)) :=
  ⟨by decide, next_state_binary (fun _ => 0) (fun _ => 0) 4 3 3 3 4 (by decide)⟩

/-- Claim C8: one call `update(grid, grid_next, i, sz)` leaves the source
grid untouched, changes the next buffer only at index `i`, and stores
there exactly the rule value. -/
theorem update_frame (g gn : Nat → Nat) (i sz : Nat) :
    (update g gn i sz).1 = g ∧
    (∀ j, j ≠ i → (update g gn i sz).2 j = gn j) ∧
    (update g gn i sz).2 i = next_state g i sz := by
  refine ⟨rfl, ?_, ?_⟩
  · intro j hj
    simp [update, Function.update_noteq hj]
  · simp [update]

theorem update_frame_witness :
    (1 : Nat) ≠ 0 ∧ (update (fun _ => 0) (fun _ => 5) 0 3).2 1 = 5 :=
  ⟨by decide, ((update_frame (fun _ => 0) (fun _ => 5) 0 3).2.1 1 (by decide))⟩

/-- Claim C2 (evaluation at the failing input): for `sz = 1` the single
cell `i = 0` of a 1×1 grid dereferences flat indices 1 and 2, which lie
outside the 1-byte backing buffer — the after-side guards `x < sz` and
`y < sz` hold for every in-range index and suppress nothing. -/
theorem update_reads_oob :
    2 ∈ updateReads 0 1 ∧ ¬(2 < 1 * 1) ∧
    1 ∈ updateReads 0 1 ∧ ¬(1 < 1 * 1) := by
  decide

/-- Grid used to exhibit the serial/CUDA boundary divergence: cells 2, 4
and 6 of a 4×4 world are alive, everything else dead. -/
def gridC3 : Nat → Nat := fun j => if j = 2 ∨ j = 4 ∨ j = 6 then 1 else 0

/-- Grid used to exhibit the kernel's `grid[i]`-vs-`grid[k]` divergence:
cells 990, 992 and 1024 of a 33×33 world (1089 cells, more than the
launch's `blockDim.x = 1024`) are alive, everything else dead. -/
def gridC3b : Nat → Nat := fun j => if j = 990 ∨ j = 992 ∨ j = 1024 then 1 else 0

/-- Claim C3 (evaluation at two failing inputs, both realized by the
kernel's loop `for (k = i; k < grid_size; k += blockDim.x)`):
(1) on `gridC3`, thread `i = 3` computes its own cell `k = 3` on its
first loop pass; the serial update counts the wrapped-around read
`grid[4]` under its loose guard `x < sz` and stores 1 (dead cell with
3 counted neighbors), while `get_num_neighbors`' strict guard
`x < sz-1` suppresses that read and the kernel stores 0 (2 neighbors).
(2) on `gridC3b`, thread `i = 0` computes cell `k = 1024` on its second
loop pass (`k = 0 + blockDim.x`); every boundary guard agrees there and
both variants count 2 live neighbors, but line 224 tests `grid[i]` —
the thread index — instead of `grid[k]`: cell 1024 is alive, so the
serial update stores 1, while cell 0 is dead and the kernel stores 0. -/
theorem cuda_serial_mismatch :
    (next_state gridC3 3 4 = 1 ∧ simulate_cell gridC3 3 3 4 = 0) ∧
    (next_state gridC3b 1024 33 = 1 ∧ simulate_cell gridC3b 0 1024 33 = 0) := by
  decide

/-- Initial grid for the C1 counterexample: 3×3, only the center cell
(flat index 4) alive; an isolated cell dies after one step. -/
def gridC1 : Nat → Nat := fun i => if i = 4 then 1 else 0

/-- Claim C1 (evaluation at the failing input): running `main`'s loop for
1 iteration on the 3×3 center-dot grid stores the after-one-step grid at
history offset `0*grid_size` (the literal `memcpy(grids+step*grid_size, ...)`),
overwriting the initial snapshot: slot 0, cell 4 ends up 0 although the
initial grid has 1 there (and slot 1 = slot `iterations` is never written). -/
theorem main_history_overwrite :
    (mainRun gridC1 (fun _ => 0) (fun _ _ => 0) 3 3 1).2.2 0 4 = 0 ∧
    gridC1 4 = 1 := by
  decide

/-- Claim C5 (evaluation at the failing inputs): with `m = n = 1` and
`p = 2` grids, a run in which the header write reports all 128 bytes and
the payload write reports all `n*m*p = 2` requested bytes makes
`grid_to_npy` return `false` (it compares the payload count against
`n*m = 1`, not `n*m*p`), while a payload write short by one byte makes it
return `true`; and `grid_to_npy_path` returns `true` whenever `fopen`
succeeds, even when both writes reported 0 bytes. -/
theorem grid_to_npy_wrong_success :
    grid_to_npy 128 2 1 1 2 = false ∧
    grid_to_npy 128 1 1 1 2 = true ∧
    grid_to_npy_path true 0 0 1 1 2 = true := by
  decide

/-- Claim C6: for every shape (m, n, p) whose header text fits the fixed
128-byte buffer, the emitted header has exactly 128 bytes (and 128 is a
multiple of 16); its first ten bytes are the magic `\x93NUMPY`, the
version bytes 1 and 0, and the little-endian 16-bit value 118
(= padded header size 128 minus the 10-byte preamble); the descriptor
text (dtype `<u1`, `fortran_order: False`, the 3-tuple shape) follows at
offset 10; every byte from the end of the text up to offset 126 is a
space (0x20); and the final byte, offset 127, is a newline (0x0A). -/
theorem npyHeader_format (m n p : Nat)
    (h : (npyHeaderBody m n p).length ≤ 127) :
    (npyHeader m n p).length = 128 ∧ 128 % 16 = 0 ∧
    (npyHeader m n p).take 10 = [0x93, 78, 85, 77, 80, 89, 1, 0, 118, 0] ∧
    ((npyHeader m n p).drop 10).take (npyDict m n p).length = npyDict m n p ∧
    (npyHeader m n p).drop (npyHeaderBody m n p).length =
      List.replicate (127 - (npyHeaderBody m n p).length) 32 ++ [10] ∧
    (npyHeader m n p).getD 127 0 = 10 := by
  have hL : (npyHeaderBody m n p ++
      List.replicate (127 - (npyHeaderBody m n p).length) 32).length = 127 := by
    simp only [List.length_append, List.length_replicate]; omega
  refine ⟨?_, by decide, ?_, ?_, ?_, ?_⟩
  · simp only [npyHeader, List.length_append, List.length_replicate,
      List.length_cons, List.length_nil]
    omega
  · rw [npyHeader, npyHeaderBody, List.append_assoc, List.append_assoc,
      List.take_left' (show npyPreamble.length = 10 by decide)]
    decide
  · rw [npyHeader, npyHeaderBody, List.append_assoc, List.append_assoc,
      List.drop_left' (show npyPreamble.length = 10 by decide),
      List.take_left' rfl]
  · rw [npyHeader, List.append_assoc, List.drop_left' rfl]
  · rw [npyHeader, List.getD_eq_getElem?_getD,
      List.getElem?_append_right (le_of_eq hL), hL]
    decide

theorem npyHeader_format_witness :
    (npyHeaderBody 3 3 4).length ≤ 127 ∧
    ((npyHeader 3 3 4).length = 128 ∧ 128 % 16 = 0 ∧
     (npyHeader 3 3 4).take 10 = [0x93, 78, 85, 77, 80, 89, 1, 0, 118, 0] ∧
     ((npyHeader 3 3 4).drop 10).take (npyDict 3 3 4).length = npyDict 3 3 4 ∧
     (npyHeader 3 3 4).drop (npyHeaderBody 3 3 4).length =
       List.replicate (127 - (npyHeaderBody 3 3 4).length) 32 ++ [10] ∧
     (npyHeader 3 3 4).getD 127 0 = 10) :=
  ⟨by decide, npyHeader_format 3 3 4 (by decide)⟩

/-- Claim C10: the load path returns a grid exactly when the file opened,
the header validated (good magic, parseable descriptor, supported dtype,
dimensionality 1 or 2), and the mapping succeeded; in every failure case
it returns NULL (`none`), never a partially-populated grid. -/
theorem load_error_handling (openOk magicOk descrOk dtypeOk mmapOk : Bool)
    (ndim : Nat) (sh : Nat × Nat) (off : Nat) :
    (grid_from_npy_path openOk
        (npy_read_header magicOk descrOk dtypeOk ndim sh off) mmapOk).isSome =
      (openOk && magicOk && descrOk && dtypeOk && (ndim == 1 || ndim == 2) &&
        mmapOk) := by
  cases openOk <;> cases magicOk <;> cases descrOk <;> cases dtypeOk <;>
    cases mmapOk <;> by_cases h1 : ndim = 1 <;> by_cases h2 : ndim = 2 <;>
      simp [grid_from_npy_path, grid_from_npy, npy_read_header, h1, h2]

/-- Grid for the C9 counterexample: all nine cells of the 3×3 grid are 0,
but the bytes just past the logical end of the buffer (flat indices
9, 10, 11 — heap garbage in the C program) are nonzero. -/
def gridC9 : Nat → Nat := fun i => if 9 ≤ i ∧ i ≤ 11 then 1 else 0

/-- Claim C9 (evaluation at the failing input): the 3×3 all-dead grid is
not a fixed point of the literal code: cell 8's after-side neighbor reads
(indices 9, 10, 11, 12) fall outside the 9-byte buffer, and when the
three bytes there are nonzero the dead cell 8 counts 3 "neighbors" and is
resurrected after one iteration. -/
theorem all_dead_resurrect :
    ((List.range 9).all fun i => gridC9 i == 0) = true ∧
    (mainRun gridC9 (fun _ => 0) (fun _ _ => 0) 3 3 1).2.2 0 8 = 1 := by
  decide
